import Mathlib

/-!
Shallow embedding of `src/bot.py` (ai-voice-agent): the
`ConversationProcessor` pipeline stage — its conversation-lifecycle state,
`handle_conversation_end`, `process_frame` — and the `on_participant_left`
transport handler.

Modelling conventions:
* Python objects and aliasing: the per-session `messages` list is shared by
  reference between the aggregators and the processor.  We model the shared
  list's contents as the `shared` field of `Session` (a one-cell heap) and
  the processor attribute `conversation_log` as a `LogRef`: initially
  `sharedRef` (an alias of the shared list object, as set up by
  `ConversationProcessor.__init__`), and after the Python rebinding
  `self.conversation_log = self.conversation_log[1:]` a `localCopy` holding
  the fresh list produced by the slice.  Slicing never mutates the aliased
  list, so the `shared` cell is only ever read.
* External collaborators (the generative-model call, `json.loads` on its
  response text, `requests.post` and `res.json()`) are oracles recorded in
  `Env`.  `requests.post` returns a response object for any HTTP status
  without raising (the source never calls `raise_for_status`), which is why
  `registryStatusCode` is never consulted by the embedded code.
* Side effects (frame pushes, log lines, `print` calls, the completion
  request, the registry POST) are recorded in order in an `Effect` trace.
  A raised Python exception is the `error` field of `StepResult`; the
  effects performed before the raise stay in the trace, later ones do not
  happen.
* The caller location `(latitude, longitude)` is never computed with, only
  copied into the registry body, so the embedding is polymorphic in the
  coordinate type `Loc`.
-/

namespace VoiceAgent

/-- One conversation turn: an element of the `messages` list,
`{"role": ..., "content": ...}`. -/
structure Turn where
  role : String
  content : String
deriving DecidableEq

/-- `pipecat` frame directions (`FrameDirection`). -/
inductive FrameDirection
  | DOWNSTREAM
  | UPSTREAM
deriving DecidableEq

/-- The frame kinds visible to `ConversationProcessor.process_frame`:
`LLMMessagesFrame` carries the list of turns; `StartFrame`, `CancelFrame`
and `EndFrame` are control frames; every other pipecat frame kind is
collapsed into `OtherFrame` (the stage inspects nothing of it). -/
inductive Frame
  | LLMMessagesFrame (messages : List Turn)
  | StartFrame
  | CancelFrame
  | EndFrame
  | OtherFrame (kind : String)
deriving DecidableEq

/-- Result of `json.loads` on the extraction response text: either a JSON
object (field/string-value pairs, per the four-field output contract) or
some other JSON value, on which a string subscript raises `TypeError`. -/
inductive JsonValue
  | obj (fields : List (String × String))
  | nonObj
deriving DecidableEq

/-- Python exceptions the embedded code can raise. -/
inductive PyError
  | jsonDecodeError
  | keyError (key : String)
  | typeError
  | indexError
deriving DecidableEq

/-- Field lookup in a parsed JSON value, `None` when absent or when the
value is not an object. -/
def jsonLookup : JsonValue → String → Option String
  | .obj fields, k => fields.lookup k
  | .nonObj, _ => none

/-- Python subscript `json_data[k]`: `KeyError` on a missing key of a dict,
`TypeError` when the parsed value is not a dict. -/
def jsonSubscript (jd : JsonValue) (k : String) : Except PyError String :=
  match jd, jsonLookup jd k with
  | .nonObj, _ => .error .typeError
  | .obj _, none => .error (.keyError k)
  | .obj _, some v => .ok v

/-- A JSON value in the registry POST body: the string fields, or a copied
caller coordinate. -/
inductive JVal (Loc : Type)
  | str (s : String)
  | num (x : Loc)
deriving DecidableEq

/-- Observable actions of the stage, in program order. -/
inductive Effect (Loc : Type)
  | pushFrame (f : Frame) (d : FrameDirection)
  | logInfo (msg : String)
  | printText (s : String)
  | printMessage (t : Turn)
  | extractCall (prompt : String)
  | printJson (j : JsonValue)
  | registryPost (url : String) (body : List (String × JVal Loc))
  | printResponseJson (j : JsonValue)
deriving DecidableEq

/-- Alias state of the `conversation_log` attribute (see module comment). -/
inductive LogRef
  | sharedRef
  | localCopy (l : List Turn)
deriving DecidableEq

/-- Per-session state of `ConversationProcessor` plus the shared `messages`
list cell it aliases. -/
structure Session (Loc : Type) where
  shared : List Turn
  conversation_log : LogRef
  conversation_ended : Bool
  caller_location : Loc × Loc
deriving DecidableEq

variable {Loc : Type}

/-- Dereference `self.conversation_log`. -/
def Session.derefLog (s : Session Loc) : List Turn :=
  match s.conversation_log with
  | .sharedRef => s.shared
  | .localCopy l => l

/-- `ConversationProcessor.__init__(messages, caller_location)`:
`conversation_log` aliases the shared list, `conversation_ended = False`. -/
def initSession (msgs : List Turn) (loc : Loc × Loc) : Session Loc :=
  ⟨msgs, .sharedRef, false, loc⟩

/-- Oracle inputs standing for the external collaborators of one
`handle_conversation_end` run (see module comment). -/
structure Env where
  extractionParse : Option JsonValue
  apiServerUrl : String
  registryStatusCode : Nat
  registryResponseJson : Option JsonValue

/-- Outcome of one handler call: state at return (or at the raise), the
effect trace performed, and the exception raised, if any. -/
structure StepResult (Loc : Type) where
  state : Session Loc
  effects : List (Effect Loc)
  error : Option PyError
deriving DecidableEq

/-- The transcript rendering loop of `handle_conversation_end`:
`transcript += f"..."` over the (already sliced) conversation log. -/
def renderTranscript (log : List Turn) : String :=
  log.foldl (fun acc m => acc ++ (m.role ++ ": " ++ m.content ++ "\n")) ""

/-- The fixed extraction instruction text of `bot.py` line 68. -/
def extractionInstruction : String :=
  "You are an AI information extrapolation agent for emergency response in a natural disaster. You are to extract the following data from the given transcript: 1) Impact (how many people are involved and how many are injured) 2) Criticality: (You are to determine the criticality based on the transcript and classify between \"High\", \"Medium\" and \"Low\") 3) Type of incident 4) Name of the caller. Respond in the following json format: \x7b \"impact\": string, \"criticality\": string, \"type\": string, \"name\": string \x7d. DO NOT OUTPUT ANYTHING OTHER THAN THE JSON. If you are unable to determine any of the above please state \"Unknown\". Following is the transcript of the call:"

/-- The four subscripts `json_data["name"]`, `json_data["criticality"]`,
`json_data["type"]`, `json_data["impact"]`, in the evaluation order of the
dict literal of the `requests.post` call (the interleaved tuple accesses and
string literals cannot raise). -/
def extractFields (jd : JsonValue) :
    Except PyError (String × String × String × String) :=
  match jsonSubscript jd "name" with
  | .error e => .error e
  | .ok nm =>
    match jsonSubscript jd "criticality" with
    | .error e => .error e
    | .ok crit =>
      match jsonSubscript jd "type" with
      | .error e => .error e
      | .ok ty =>
        match jsonSubscript jd "impact" with
        | .error e => .error e
        | .ok imp => .ok (nm, crit, ty, imp)

/-- The JSON body of the registry POST, with keys in source order. -/
def registryBody (loc : Loc × Loc) (transcript nm crit ty imp : String) :
    List (String × JVal Loc) :=
  [("name", .str nm),
   ("lat", .num loc.1),
   ("lng", .num loc.2),
   ("criticality", .str crit),
   ("transcript", .str transcript),
   ("status", .str "open"),
   ("type", .str ty),
   ("impact", .str imp)]

/-- Body of `handle_conversation_end` past the idempotence guard
(`bot.py` lines 55–85). -/
def endBody (env : Env) (s : Session Loc) : StepResult Loc :=
  let s1 : Session Loc := { s with conversation_ended := true }
  let log := s1.derefLog.drop 1
  let s2 : Session Loc := { s1 with conversation_log := .localCopy log }
  let transcript := renderTranscript log
  let prompt := extractionInstruction ++ "\n" ++ transcript
  let pre : List (Effect Loc) :=
    [.pushFrame .EndFrame .UPSTREAM,
     .logInfo "Conversation Ended",
     .printText transcript,
     .extractCall prompt]
  match env.extractionParse with
  | none => ⟨s2, pre, some .jsonDecodeError⟩
  | some jd =>
    match extractFields jd with
    | .error e => ⟨s2, pre ++ [.printJson jd], some e⟩
    | .ok (nm, crit, ty, imp) =>
      let url := env.apiServerUrl ++ "/api/incidents/register"
      let body := registryBody s.caller_location transcript nm crit ty imp
      let posted := pre ++ [.printJson jd, .registryPost url body]
      match env.registryResponseJson with
      | none => ⟨s2, posted, some .jsonDecodeError⟩
      | some rj => ⟨s2, posted ++ [.printResponseJson rj], none⟩

/-- `ConversationProcessor.handle_conversation_end`: the early return when
`self.conversation_ended`, else the termination body. -/
def handle_conversation_end (env : Env) (s : Session Loc) : StepResult Loc :=
  if s.conversation_ended then ⟨s, [], none⟩ else endBody env s

/-- Python substring test `needle in hay`. -/
def strContains (hay needle : String) : Bool :=
  hay.toList.tails.any (fun t => needle.toList.isPrefixOf t)

/-- `ConversationProcessor.process_frame` (`bot.py` lines 87–101).
`frame.messages[-1]` on an empty list raises `IndexError`; a raise inside
`handle_conversation_end` propagates, skipping the later statements. -/
def process_frame (env : Env) (s : Session Loc) (frame : Frame)
    (direction : FrameDirection) : StepResult Loc :=
  match frame with
  | .LLMMessagesFrame messages =>
    match messages.getLast? with
    | none => ⟨s, [], some .indexError⟩
    | some last =>
      if last.role == "assistant" && strContains last.content "<END>" then
        let r := handle_conversation_end env s
        match r.error with
        | some _ => r
        | none =>
          ⟨r.state,
           r.effects ++ [.printMessage last, .pushFrame frame direction],
           none⟩
      else
        ⟨s, [.printMessage last, .pushFrame frame direction], none⟩
  | .EndFrame =>
    let r := handle_conversation_end env s
    match r.error with
    | some _ => r
    | none => ⟨r.state, r.effects ++ [.pushFrame frame direction], none⟩
  | _ => ⟨s, [.pushFrame frame direction], none⟩

/-- The `on_participant_left` transport handler: queues a single `EndFrame`
onto the pipeline task. -/
def on_participant_left : List Frame := [Frame.EndFrame]

/-- Deliver a sequence of frames to the stage.  Per the error-propagation
policy, an exception local to one frame's handling drops that frame but does
not reset session state for the frames that follow. -/
def runFrames (env : Env) (s : Session Loc) :
    List (Frame × FrameDirection) → Session Loc × List (Effect Loc)
  | [] => (s, [])
  | (f, d) :: rest =>
    let r := process_frame env s f d
    let rest2 := runFrames env r.state rest
    (rest2.1, r.effects ++ rest2.2)

/-- Is an effect the extraction completion call? -/
def isExtractCall : Effect Loc → Bool
  | .extractCall _ => true
  | _ => false

/-- Is an effect the registry POST? -/
def isRegistryPost : Effect Loc → Bool
  | .registryPost _ _ => true
  | _ => false

/-- Number of extraction completion calls in a trace. -/
def extractCount (effs : List (Effect Loc)) : Nat :=
  (effs.filter isExtractCall).length

/-- Number of registry submissions in a trace. -/
def registryCount (effs : List (Effect Loc)) : Nat :=
  (effs.filter isRegistryPost).length

/-- The spec's rendering of a transcript (claim C2's words): the turns
rendered as one `role: content` line per turn, in original order. -/
def renderTranscriptSpec : List Turn → String
  | [] => ""
  | m :: ms => (m.role ++ ": " ++ m.content ++ "\n") ++ renderTranscriptSpec ms

/-- The first four effects of the termination body, common to every
collaborator outcome: upstream `End` push, log line, transcript print,
extraction completion call. -/
def endPreEffects (s : Session Loc) : List (Effect Loc) :=
  [.pushFrame .EndFrame .UPSTREAM,
   .logInfo "Conversation Ended",
   .printText (renderTranscript (s.derefLog.drop 1)),
   .extractCall (extractionInstruction ++ "\n" ++ renderTranscript (s.derefLog.drop 1))]

/-- How many termination bodies the session can still run. -/
def budget (s : Session Loc) : Nat :=
  if s.conversation_ended then 0 else 1

/-! ### Basic lemmas about the embedding -/

@[simp] lemma derefLog_set_ended (s : Session Loc) (b : Bool) :
    ({ s with conversation_ended := b } : Session Loc).derefLog = s.derefLog := rfl

lemma renderTranscript_aux (log : List Turn) (acc : String) :
    log.foldl (fun acc m => acc ++ (m.role ++ ": " ++ m.content ++ "\n")) acc
      = acc ++ renderTranscriptSpec log := by
  induction log generalizing acc with
  | nil => simp [renderTranscriptSpec]
  | cons m ms ih =>
    rw [List.foldl_cons, ih]
    simp [renderTranscriptSpec, String.append_assoc]

lemma renderTranscript_eq_spec (log : List Turn) :
    renderTranscript log = renderTranscriptSpec log := by
  have h := renderTranscript_aux log ""
  simpa [renderTranscript] using h

lemma extractCount_append (xs ys : List (Effect Loc)) :
    extractCount (xs ++ ys) = extractCount xs + extractCount ys := by
  simp [extractCount, List.filter_append]

lemma registryCount_append (xs ys : List (Effect Loc)) :
    registryCount (xs ++ ys) = registryCount xs + registryCount ys := by
  simp [registryCount, List.filter_append]

/-- Full case analysis of the termination body: the state it leaves, and the
effect trace it produces — always the four `endPreEffects` followed by a
tail with no further extraction call and at most one registry POST. -/
lemma endBody_cases (env : Env) (s : Session Loc) :
    (endBody env s).state =
      { s with conversation_ended := true,
               conversation_log := .localCopy (s.derefLog.drop 1) } ∧
    ∃ tl,
      (endBody env s).effects = endPreEffects s ++ tl ∧
      extractCount tl = 0 ∧ registryCount tl ≤ 1 := by
  obtain ⟨ep, url, code, rrj⟩ := env
  cases ep with
  | none =>
    refine ⟨?_, [], ?_, rfl, by simp [registryCount]⟩
    · simp [endBody]
    · simp [endBody, endPreEffects]
  | some jd =>
    cases hf : extractFields jd with
    | error e =>
      refine ⟨?_, [.printJson jd], ?_, ?_, ?_⟩
      · simp [endBody, hf]
      · simp [endBody, hf, endPreEffects]
      · simp [extractCount, isExtractCall]
      · simp [registryCount, isRegistryPost]
    | ok q =>
      obtain ⟨nm, crit, ty, imp⟩ := q
      cases rrj with
      | none =>
        refine ⟨?_,
          [.printJson jd,
           .registryPost (url ++ "/api/incidents/register")
             (registryBody s.caller_location
               (renderTranscript (s.derefLog.drop 1)) nm crit ty imp)],
          ?_, ?_, ?_⟩
        · simp [endBody, hf]
        · simp [endBody, hf, endPreEffects]
        · simp [extractCount, isExtractCall]
        · simp [registryCount, isRegistryPost]
      | some rj =>
        refine ⟨?_,
          [.printJson jd,
           .registryPost (url ++ "/api/incidents/register")
             (registryBody s.caller_location
               (renderTranscript (s.derefLog.drop 1)) nm crit ty imp),
           .printResponseJson rj],
          ?_, ?_, ?_⟩
        · simp [endBody, hf]
        · simp [endBody, hf, endPreEffects]
        · simp [extractCount, isExtractCall]
        · simp [registryCount, isRegistryPost]

lemma handle_end_of_ended (env : Env) (s : Session Loc)
    (h : s.conversation_ended = true) :
    handle_conversation_end env s = ⟨s, [], none⟩ := by
  simp [handle_conversation_end, h]

lemma handle_end_not_ended (env : Env) (s : Session Loc)
    (h : s.conversation_ended = false) :
    handle_conversation_end env s = endBody env s := by
  simp [handle_conversation_end, h]

lemma handle_end_state_ended (env : Env) (s : Session Loc) :
    (handle_conversation_end env s).state.conversation_ended = true := by
  cases h : s.conversation_ended with
  | false => rw [handle_end_not_ended env s h, (endBody_cases env s).1]
  | true => rw [handle_end_of_ended env s h]; exact h

lemma handle_end_shared (env : Env) (s : Session Loc) :
    (handle_conversation_end env s).state.shared = s.shared := by
  cases h : s.conversation_ended with
  | false => rw [handle_end_not_ended env s h, (endBody_cases env s).1]
  | true => rw [handle_end_of_ended env s h]

lemma handle_end_counts (env : Env) (s : Session Loc)
    (h : s.conversation_ended = false) :
    extractCount (handle_conversation_end env s).effects = 1 ∧
    registryCount (handle_conversation_end env s).effects ≤ 1 := by
  rw [handle_end_not_ended env s h]
  obtain ⟨-, tl, heff, hex, hreg⟩ := endBody_cases env s
  rw [heff, extractCount_append, registryCount_append, hex]
  constructor
  · simp [endPreEffects, extractCount, isExtractCall]
  · have : registryCount (endPreEffects s) = 0 := by
      simp [endPreEffects, registryCount, isRegistryPost]
    omega

/-- Once the session is ended, any frame leaves the state untouched and
triggers neither extraction nor a registry POST. -/
lemma process_frame_of_ended (env : Env) (s : Session Loc) (f : Frame)
    (d : FrameDirection) (h : s.conversation_ended = true) :
    (process_frame env s f d).state = s ∧
    extractCount (process_frame env s f d).effects = 0 ∧
    registryCount (process_frame env s f d).effects = 0 := by
  cases f with
  | LLMMessagesFrame messages =>
    cases hl : messages.getLast? with
    | none => simp [process_frame, hl, extractCount, registryCount]
    | some last =>
      by_cases hc : (last.role == "assistant" && strContains last.content "<END>") = true
      · simp [process_frame, hl, hc, handle_end_of_ended env s h,
          extractCount, registryCount, isExtractCall, isRegistryPost]
      · simp [process_frame, hl, hc,
          extractCount, registryCount, isExtractCall, isRegistryPost]
  | EndFrame =>
    simp [process_frame, handle_end_of_ended env s h,
      extractCount, registryCount, isExtractCall, isRegistryPost]
  | StartFrame =>
    simp [process_frame, extractCount, registryCount, isExtractCall, isRegistryPost]
  | CancelFrame =>
    simp [process_frame, extractCount, registryCount, isExtractCall, isRegistryPost]
  | OtherFrame k =>
    simp [process_frame, extractCount, registryCount, isExtractCall, isRegistryPost]

/-- The shared transcript cell is never written by the stage. -/
lemma process_frame_shared (env : Env) (s : Session Loc) (f : Frame)
    (d : FrameDirection) :
    (process_frame env s f d).state.shared = s.shared := by
  cases f with
  | LLMMessagesFrame messages =>
    cases hl : messages.getLast? with
    | none => simp [process_frame, hl]
    | some last =>
      by_cases hc : (last.role == "assistant" && strContains last.content "<END>") = true
      · have hs := handle_end_shared env s
        cases he : (handle_conversation_end env s).error with
        | none => simp [process_frame, hl, hc, he, hs]
        | some e => simp [process_frame, hl, hc, he, hs]
      · simp [process_frame, hl, hc]
  | EndFrame =>
    have hs := handle_end_shared env s
    cases he : (handle_conversation_end env s).error with
    | none => simp [process_frame, he, hs]
    | some e => simp [process_frame, he, hs]
  | StartFrame => simp [process_frame]
  | CancelFrame => simp [process_frame]
  | OtherFrame k => simp [process_frame]

/-- Handling one frame spends at most the session's remaining termination
budget: extraction and registry calls in the produced trace, plus what the
resulting state can still spend, never exceed what the incoming state could
spend. -/
lemma process_frame_budget (env : Env) (s : Session Loc) (f : Frame)
    (d : FrameDirection) :
    extractCount (process_frame env s f d).effects
        + budget (process_frame env s f d).state ≤ budget s ∧
    registryCount (process_frame env s f d).effects
        + budget (process_frame env s f d).state ≤ budget s := by
  cases h : s.conversation_ended with
  | true =>
    obtain ⟨hst, hex, hreg⟩ := process_frame_of_ended env s f d h
    rw [hst, hex, hreg]
    omega
  | false =>
    have hb : budget s = 1 := by simp [budget, h]
    obtain ⟨hx, hr1⟩ := handle_end_counts env s h
    have hhe : (handle_conversation_end env s).state.conversation_ended = true :=
      handle_end_state_ended env s
    have hbe : budget (handle_conversation_end env s).state = 0 := by
      simp [budget, hhe]
    cases f with
    | LLMMessagesFrame messages =>
      cases hl : messages.getLast? with
      | none => simp [process_frame, hl, extractCount, registryCount, budget, h]
      | some last =>
        by_cases hc : (last.role == "assistant" && strContains last.content "<END>") = true
        · cases he : (handle_conversation_end env s).error with
          | none =>
            have heq : process_frame env s (.LLMMessagesFrame messages) d =
                ⟨(handle_conversation_end env s).state,
                 (handle_conversation_end env s).effects
                   ++ [.printMessage last, .pushFrame (.LLMMessagesFrame messages) d],
                 none⟩ := by
              simp [process_frame, hl, hc, he]
            rw [heq]
            dsimp only
            rw [extractCount_append, registryCount_append]
            have he1 : extractCount
                ([.printMessage last,
                  .pushFrame (.LLMMessagesFrame messages) d] : List (Effect Loc)) = 0 := by
              simp [extractCount, isExtractCall]
            have he2 : registryCount
                ([.printMessage last,
                  .pushFrame (.LLMMessagesFrame messages) d] : List (Effect Loc)) = 0 := by
              simp [registryCount, isRegistryPost]
            omega
          | some e =>
            have heq : process_frame env s (.LLMMessagesFrame messages) d =
                handle_conversation_end env s := by
              simp [process_frame, hl, hc, he]
            rw [heq]
            omega
        · simp [process_frame, hl, hc, extractCount, registryCount,
            isExtractCall, isRegistryPost, budget, h]
    | EndFrame =>
      cases he : (handle_conversation_end env s).error with
      | none =>
        have heq : process_frame env s .EndFrame d =
            ⟨(handle_conversation_end env s).state,
             (handle_conversation_end env s).effects
               ++ [.pushFrame .EndFrame d],
             none⟩ := by
          simp [process_frame, he]
        rw [heq]
        dsimp only
        rw [extractCount_append, registryCount_append]
        have he1 : extractCount ([.pushFrame .EndFrame d] : List (Effect Loc)) = 0 := by
          simp [extractCount, isExtractCall]
        have he2 : registryCount ([.pushFrame .EndFrame d] : List (Effect Loc)) = 0 := by
          simp [registryCount, isRegistryPost]
        omega
      | some e =>
        have heq : process_frame env s .EndFrame d =
            handle_conversation_end env s := by
          simp [process_frame, he]
        rw [heq]
        omega
    | StartFrame =>
      simp [process_frame, extractCount, registryCount,
        isExtractCall, isRegistryPost, budget, h]
    | CancelFrame =>
      simp [process_frame, extractCount, registryCount,
        isExtractCall, isRegistryPost, budget, h]
    | OtherFrame k =>
      simp [process_frame, extractCount, registryCount,
        isExtractCall, isRegistryPost, budget, h]

/-- Delivering any frame sequence spends at most the remaining budget. -/
lemma runFrames_budget (env : Env) (evs : List (Frame × FrameDirection)) :
    ∀ s : Session Loc,
      extractCount (runFrames env s evs).2 ≤ budget s ∧
      registryCount (runFrames env s evs).2 ≤ budget s := by
  induction evs with
  | nil => intro s; simp [runFrames, extractCount, registryCount]
  | cons ev rest ih =>
    intro s
    obtain ⟨f, d⟩ := ev
    have hb := process_frame_budget env s f d
    have hr := ih (process_frame env s f d).state
    have h2 : (runFrames env s ((f, d) :: rest)).2
        = (process_frame env s f d).effects
          ++ (runFrames env (process_frame env s f d).state rest).2 := by
      simp [runFrames]
    rw [h2, extractCount_append, registryCount_append]
    omega

/-- Delivering any frame sequence to an already-ended session changes
nothing and produces no extraction or registry call. -/
lemma runFrames_of_ended (env : Env) (evs : List (Frame × FrameDirection)) :
    ∀ s : Session Loc, s.conversation_ended = true →
      (runFrames env s evs).1 = s ∧
      extractCount (runFrames env s evs).2 = 0 ∧
      registryCount (runFrames env s evs).2 = 0 := by
  induction evs with
  | nil => intro s h; simp [runFrames, extractCount, registryCount]
  | cons ev rest ih =>
    intro s h
    obtain ⟨f, d⟩ := ev
    obtain ⟨hst, hex, hreg⟩ := process_frame_of_ended env s f d h
    obtain ⟨hi1, hi2, hi3⟩ := ih s h
    have h1 : (runFrames env s ((f, d) :: rest)).1
        = (runFrames env (process_frame env s f d).state rest).1 := by
      simp [runFrames]
    have h2 : (runFrames env s ((f, d) :: rest)).2
        = (process_frame env s f d).effects
          ++ (runFrames env (process_frame env s f d).state rest).2 := by
      simp [runFrames]
    rw [h1, h2, extractCount_append, registryCount_append, hst, hex, hreg]
    exact ⟨hi1, by omega, by omega⟩

/-- If the four subscripts all succeed, each key was present with the
returned value. -/
lemma lookup_of_extractFields (jd : JsonValue) (nm crit ty imp : String)
    (h : extractFields jd = .ok (nm, crit, ty, imp)) :
    jsonLookup jd "name" = some nm ∧ jsonLookup jd "criticality" = some crit ∧
    jsonLookup jd "type" = some ty ∧ jsonLookup jd "impact" = some imp := by
  cases jd with
  | nonObj => simp [extractFields, jsonSubscript] at h
  | obj fields =>
    cases h1 : fields.lookup "name" with
    | none => simp [extractFields, jsonSubscript, jsonLookup, h1] at h
    | some v1 =>
      cases h2 : fields.lookup "criticality" with
      | none => simp [extractFields, jsonSubscript, jsonLookup, h1, h2] at h
      | some v2 =>
        cases h3 : fields.lookup "type" with
        | none => simp [extractFields, jsonSubscript, jsonLookup, h1, h2, h3] at h
        | some v3 =>
          cases h4 : fields.lookup "impact" with
          | none => simp [extractFields, jsonSubscript, jsonLookup, h1, h2, h3, h4] at h
          | some v4 =>
            simp [extractFields, jsonSubscript, jsonLookup, h1, h2, h3, h4] at h
            obtain ⟨e1, e2, e3, e4⟩ := h
            simp [jsonLookup, h1, h2, h3, h4, e1, e2, e3, e4]

/-- Conversely, four present keys make the subscript chain succeed. -/
lemma extractFields_of_lookup (jd : JsonValue) (nm crit ty imp : String)
    (h1 : jsonLookup jd "name" = some nm)
    (h2 : jsonLookup jd "criticality" = some crit)
    (h3 : jsonLookup jd "type" = some ty)
    (h4 : jsonLookup jd "impact" = some imp) :
    extractFields jd = .ok (nm, crit, ty, imp) := by
  cases jd with
  | nonObj => simp [jsonLookup] at h1
  | obj fields =>
    simp only [jsonLookup] at h1 h2 h3 h4
    simp [extractFields, jsonSubscript, jsonLookup, h1, h2, h3, h4]

/-- A parse failure or a missing contract field raises before the registry
POST is reached. -/
lemma endBody_error_of_malformed (env : Env) (s : Session Loc)
    (hmal : env.extractionParse = none ∨
      ∃ jd, env.extractionParse = some jd ∧
        (jsonLookup jd "name" = none ∨ jsonLookup jd "criticality" = none ∨
         jsonLookup jd "type" = none ∨ jsonLookup jd "impact" = none)) :
    (endBody env s).error.isSome = true ∧
    registryCount (endBody env s).effects = 0 := by
  rcases hmal with hep | ⟨jd, hep, hmiss⟩
  · constructor
    · simp [endBody, hep]
    · simp [endBody, hep, registryCount, isRegistryPost]
  · cases hfe : extractFields jd with
    | error e =>
      constructor
      · simp [endBody, hep, hfe]
      · simp [endBody, hep, hfe, registryCount, isRegistryPost]
    | ok q =>
      obtain ⟨nm, crit, ty, imp⟩ := q
      obtain ⟨l1, l2, l3, l4⟩ := lookup_of_extractFields jd nm crit ty imp hfe
      rcases hmiss with hm | hm | hm | hm
      · rw [hm] at l1; cases l1
      · rw [hm] at l2; cases l2
      · rw [hm] at l3; cases l3
      · rw [hm] at l4; cases l4

/-! ### Concrete fixtures for witnesses and counterexamples -/

/-- A well-formed extraction response. -/
def goodParse : JsonValue :=
  .obj [("name", "Alice"), ("criticality", "High"), ("type", "Flood"),
        ("impact", "2 injured")]

/-- Collaborator oracle: well-formed extraction, HTTP 200 registry. -/
def envW1 : Env := ⟨some goodParse, "http://localhost:4000", 200, some (.obj [("ok", "true")])⟩

/-- Collaborator oracle whose extraction response lacks `type` and `impact`. -/
def envW4 : Env :=
  ⟨some (.obj [("name", "Alice"), ("criticality", "High")]),
   "http://localhost:4000", 200, some (.obj [])⟩

/-- Collaborator oracle: well-formed extraction, registry replying HTTP 500
with a JSON error body. -/
def envW5 : Env := ⟨some goodParse, "http://localhost:4000", 500, some (.obj [("error", "internal")])⟩

/-- A three-turn transcript ending in a sentinel-bearing assistant turn. -/
def msgsW1 : List Turn :=
  [⟨"system", "You are an AI incident response agent"⟩,
   ⟨"user", "My house is flooding, 2 people injured"⟩,
   ⟨"assistant", "Help is on the way <END>"⟩]

/-- A transcript whose sentinel-bearing assistant turn is not the final
turn. -/
def msgsW10 : List Turn :=
  [⟨"system", "sys"⟩, ⟨"assistant", "Goodbye <END>"⟩,
   ⟨"user", "wait, one more thing"⟩]

/-- A fresh session over `msgsW1`. -/
def sessW : Session Int := initSession msgsW1 (5, 3)

/-- A fresh session over `msgsW10`. -/
def sessW10 : Session Int := initSession msgsW10 (5, 3)

/-- A session that has already completed the termination transition. -/
def sessEnded : Session Int := ⟨msgsW1, .localCopy (msgsW1.drop 1), true, (5, 3)⟩

/-- A trigger sequence firing all three trigger paths in turn. -/
def evsW : List (Frame × FrameDirection) :=
  [(.LLMMessagesFrame msgsW1, .DOWNSTREAM),
   (.EndFrame, .DOWNSTREAM),
   (.EndFrame, .UPSTREAM)]

/-! ### Claim theorems -/

/-- Claim C1: the termination sequence runs at most once per session — over
any delivered sequence of trigger events, a fresh session performs at most
one extraction call and at most one registry submission, and once the
session is ended every further trigger is a no-op on the controller state
and produces no extraction call or registry submission. -/
theorem c1_termination_at_most_once (env : Env) (s : Session Loc)
    (evs : List (Frame × FrameDirection)) :
    (s.conversation_ended = false →
      extractCount (runFrames env s evs).2 ≤ 1 ∧
      registryCount (runFrames env s evs).2 ≤ 1) ∧
    (s.conversation_ended = true →
      (runFrames env s evs).1 = s ∧
      extractCount (runFrames env s evs).2 = 0 ∧
      registryCount (runFrames env s evs).2 = 0) := by
  constructor
  · intro h
    obtain ⟨hb1, hb2⟩ := runFrames_budget env evs s
    have hbs : budget s = 1 := by simp [budget, h]
    omega
  · intro h
    exact runFrames_of_ended env evs s h

/-- Witness for C1: a concrete fresh session under three triggers, and a
concrete ended session that no trigger affects. -/
theorem c1_termination_at_most_once_wit :
    (extractCount (runFrames envW1 sessW evsW).2 ≤ 1 ∧
     registryCount (runFrames envW1 sessW evsW).2 ≤ 1) ∧
    ((runFrames envW1 sessEnded evsW).1 = sessEnded ∧
     extractCount (runFrames envW1 sessEnded evsW).2 = 0 ∧
     registryCount (runFrames envW1 sessEnded evsW).2 = 0) :=
  ⟨(c1_termination_at_most_once envW1 sessW evsW).1 rfl,
   (c1_termination_at_most_once envW1 sessEnded evsW).2 rfl⟩

/-- Claim C2: for every transcript of length at least 1, the text passed to
the extraction completion call excludes the turn at index 0 and renders the
remaining turns as one `role: content` line per turn, in original order
(and that extraction call is the only one in the trace). -/
theorem c2_transcript_drops_system_turn (env : Env) (s : Session Loc)
    (h : s.conversation_ended = false) (hlen : 1 ≤ s.derefLog.length) :
    ∃ tl,
      (handle_conversation_end env s).effects =
        Effect.pushFrame .EndFrame .UPSTREAM ::
        Effect.logInfo "Conversation Ended" ::
        Effect.printText (renderTranscriptSpec (s.derefLog.drop 1)) ::
        Effect.extractCall
          (extractionInstruction ++ "\n"
            ++ renderTranscriptSpec (s.derefLog.drop 1)) :: tl ∧
      extractCount tl = 0 := by
  rw [handle_end_not_ended env s h]
  obtain ⟨-, tl, heff, hex, -⟩ := endBody_cases env s
  refine ⟨tl, ?_, hex⟩
  rw [heff]
  simp [endPreEffects, renderTranscript_eq_spec]

/-- Witness for C2 on a concrete three-turn transcript. -/
theorem c2_transcript_drops_system_turn_wit :
    ∃ tl,
      (handle_conversation_end envW1 sessW).effects =
        Effect.pushFrame .EndFrame .UPSTREAM ::
        Effect.logInfo "Conversation Ended" ::
        Effect.printText (renderTranscriptSpec (sessW.derefLog.drop 1)) ::
        Effect.extractCall
          (extractionInstruction ++ "\n"
            ++ renderTranscriptSpec (sessW.derefLog.drop 1)) :: tl ∧
      extractCount tl = 0 :=
  c2_transcript_drops_system_turn envW1 sessW rfl (by decide)

/-- Claim C3: the termination transition fires under each of the three
triggers — (a) a dialogue-content frame whose (final) message has role
"assistant" and content containing the sentinel token, (b) the
participant-left handler, which queues an `End` frame whose processing
fires the transition, and (c) any observed `End` frame. -/
theorem c3_three_triggers_fire (env : Env) (s : Session Loc) :
    (∀ msgs last d, msgs.getLast? = some last →
      last.role = "assistant" → strContains last.content "<END>" = true →
      (process_frame env s (.LLMMessagesFrame msgs) d).state.conversation_ended = true) ∧
    (on_participant_left = [Frame.EndFrame] ∧
      ∀ f, f ∈ on_participant_left → ∀ d,
        (process_frame env s f d).state.conversation_ended = true) ∧
    (∀ d, (process_frame env s Frame.EndFrame d).state.conversation_ended = true) := by
  have hend : ∀ d, (process_frame env s Frame.EndFrame d).state.conversation_ended = true := by
    intro d
    cases he : (handle_conversation_end env s).error with
    | none => simp [process_frame, he, handle_end_state_ended]
    | some e => simp [process_frame, he, handle_end_state_ended]
  refine ⟨?_, ⟨rfl, ?_⟩, hend⟩
  · intro msgs last d hl hrole hcontent
    have hc : (last.role == "assistant" && strContains last.content "<END>") = true := by
      simp [hrole, hcontent]
    cases he : (handle_conversation_end env s).error with
    | none => simp [process_frame, hl, hc, he, handle_end_state_ended]
    | some e => simp [process_frame, hl, hc, he, handle_end_state_ended]
  · intro f hf d
    rw [List.mem_singleton.mp hf]
    exact hend d

/-- Witness for C3: a concrete sentinel frame, the participant-left queue
and a bare `End` frame each leave a fresh session ended. -/
theorem c3_three_triggers_fire_wit :
    (process_frame envW1 sessW (.LLMMessagesFrame msgsW1) .DOWNSTREAM).state.conversation_ended = true ∧
    on_participant_left = [Frame.EndFrame] ∧
    (process_frame envW1 sessW Frame.EndFrame .DOWNSTREAM).state.conversation_ended = true :=
  ⟨(c3_three_triggers_fire envW1 sessW).1 msgsW1
      ⟨"assistant", "Help is on the way <END>"⟩ .DOWNSTREAM (by decide) rfl (by decide),
   (c3_three_triggers_fire envW1 sessW).2.1.1,
   (c3_three_triggers_fire envW1 sessW).2.2 .DOWNSTREAM⟩

/-- Claim C4: an extraction response that does not parse as JSON, or parses
but lacks one of the four contract fields, raises a reportable error and
the registry submission never happens in that session. -/
theorem c4_malformed_extraction_skips_registry (env : Env) (s : Session Loc)
    (h : s.conversation_ended = false)
    (hmal : env.extractionParse = none ∨
      ∃ jd, env.extractionParse = some jd ∧
        (jsonLookup jd "name" = none ∨ jsonLookup jd "criticality" = none ∨
         jsonLookup jd "type" = none ∨ jsonLookup jd "impact" = none)) :
    (handle_conversation_end env s).error.isSome = true ∧
    registryCount (handle_conversation_end env s).effects = 0 := by
  rw [handle_end_not_ended env s h]
  exact endBody_error_of_malformed env s hmal

/-- Witness for C4: a response missing the `type` field raises and produces
no registry POST. -/
theorem c4_malformed_extraction_skips_registry_wit :
    (handle_conversation_end envW4 sessW).error.isSome = true ∧
    registryCount (handle_conversation_end envW4 sessW).effects = 0 :=
  c4_malformed_extraction_skips_registry envW4 sessW rfl
    (Or.inr ⟨.obj [("name", "Alice"), ("criticality", "High")], rfl,
      Or.inr (Or.inr (Or.inl (by decide)))⟩)

/-- Claim C5 counterexample: a registry submission answered with HTTP 500
(and a JSON error body) completes the termination body with no exception
raised — no `RegistrySubmissionFailure` or any other error is recorded, so
the claim that failed submissions record an error is false of the code
(which never inspects the response status). -/
theorem c5_counterexample :
    envW5.registryStatusCode = 500 ∧
    (handle_conversation_end envW5 sessW).error = none ∧
    registryCount (handle_conversation_end envW5 sessW).effects = 1 := by
  refine ⟨rfl, ?_, ?_⟩ <;> decide

/-- Claim C5 as amended: for every registry response status — 2xx or not —
the controller records no error (provided the response body parses for the
final print), the session still transitions to `ENDED`, the POST happened
exactly once, and no later trigger re-runs extraction. -/
theorem c5_no_error_recorded_on_any_status (env : Env) (s : Session Loc)
    (evs : List (Frame × FrameDirection)) (jd rj : JsonValue)
    (q : String × String × String × String)
    (h : s.conversation_ended = false)
    (hjd : env.extractionParse = some jd)
    (hfe : extractFields jd = .ok q)
    (hrj : env.registryResponseJson = some rj) :
    (handle_conversation_end env s).error = none ∧
    (handle_conversation_end env s).state.conversation_ended = true ∧
    registryCount (handle_conversation_end env s).effects = 1 ∧
    extractCount (runFrames env (handle_conversation_end env s).state evs).2 = 0 := by
  obtain ⟨nm, crit, ty, imp⟩ := q
  refine ⟨?_, handle_end_state_ended env s, ?_, ?_⟩
  · rw [handle_end_not_ended env s h]
    simp [endBody, hjd, hfe, hrj]
  · rw [handle_end_not_ended env s h]
    simp [endBody, hjd, hfe, hrj, endPreEffects, registryCount, isRegistryPost]
  · exact (runFrames_of_ended env evs _ (handle_end_state_ended env s)).2.1

/-- Witness for C5's amended statement at the concrete HTTP-500 oracle. -/
theorem c5_no_error_recorded_on_any_status_wit :
    (handle_conversation_end envW5 sessW).error = none ∧
    (handle_conversation_end envW5 sessW).state.conversation_ended = true ∧
    registryCount (handle_conversation_end envW5 sessW).effects = 1 ∧
    extractCount (runFrames envW5 (handle_conversation_end envW5 sessW).state evsW).2 = 0 :=
  c5_no_error_recorded_on_any_status envW5 sessW evsW goodParse
    (.obj [("error", "internal")]) ("Alice", "High", "Flood", "2 injured")
    rfl rfl rfl rfl

/-- Claim C6: on a successful termination the registry submission is the
single POST to `{API_SERVER_URL}/api/incidents/register` whose body has
exactly the eight keys in source order, with the four extracted fields, the
caller-location components as `lat`/`lng`, the rendered transcript, and the
literal status `"open"`. -/
theorem c6_registry_post_body (env : Env) (s : Session Loc) (jd : JsonValue)
    (nm crit ty imp : String)
    (h : s.conversation_ended = false)
    (hjd : env.extractionParse = some jd)
    (h1 : jsonLookup jd "name" = some nm)
    (h2 : jsonLookup jd "criticality" = some crit)
    (h3 : jsonLookup jd "type" = some ty)
    (h4 : jsonLookup jd "impact" = some imp) :
    (handle_conversation_end env s).effects.filter isRegistryPost =
      [Effect.registryPost (env.apiServerUrl ++ "/api/incidents/register")
        [("name", .str nm),
         ("lat", .num s.caller_location.1),
         ("lng", .num s.caller_location.2),
         ("criticality", .str crit),
         ("transcript", .str (renderTranscript (s.derefLog.drop 1))),
         ("status", .str "open"),
         ("type", .str ty),
         ("impact", .str imp)]] := by
  have hfe := extractFields_of_lookup jd nm crit ty imp h1 h2 h3 h4
  rw [handle_end_not_ended env s h]
  cases hrj : env.registryResponseJson with
  | none => simp [endBody, hjd, hfe, hrj, registryBody, isRegistryPost]
  | some rj => simp [endBody, hjd, hfe, hrj, registryBody, isRegistryPost]

/-- Witness for C6 at the concrete fixtures. -/
theorem c6_registry_post_body_wit :
    (handle_conversation_end envW1 sessW).effects.filter isRegistryPost =
      [Effect.registryPost (envW1.apiServerUrl ++ "/api/incidents/register")
        [("name", .str "Alice"),
         ("lat", .num sessW.caller_location.1),
         ("lng", .num sessW.caller_location.2),
         ("criticality", .str "High"),
         ("transcript", .str (renderTranscript (sessW.derefLog.drop 1))),
         ("status", .str "open"),
         ("type", .str "Flood"),
         ("impact", .str "2 injured")]] :=
  c6_registry_post_body envW1 sessW goodParse "Alice" "High" "Flood" "2 injured"
    rfl rfl (by decide) (by decide) (by decide) (by decide)

/-- Claim C7: on the first transition the upstream `End` frame is pushed
strictly before the transcript is rendered and printed, before the
extraction completion call, and before any registry submission. -/
theorem c7_upstream_end_first (env : Env) (s : Session Loc)
    (h : s.conversation_ended = false) :
    ∃ tl,
      (handle_conversation_end env s).effects =
        Effect.pushFrame Frame.EndFrame FrameDirection.UPSTREAM ::
        Effect.logInfo "Conversation Ended" ::
        Effect.printText (renderTranscript (s.derefLog.drop 1)) ::
        Effect.extractCall
          (extractionInstruction ++ "\n"
            ++ renderTranscript (s.derefLog.drop 1)) :: tl ∧
      ∀ u b, Effect.registryPost u b ∈ (handle_conversation_end env s).effects →
        Effect.registryPost u b ∈ tl := by
  rw [handle_end_not_ended env s h]
  obtain ⟨-, tl, heff, -, -⟩ := endBody_cases env s
  refine ⟨tl, ?_, ?_⟩
  · rw [heff]; simp [endPreEffects]
  · intro u b hmem
    rw [heff] at hmem
    simpa [endPreEffects] using hmem

/-- Witness for C7 at the concrete fixtures. -/
theorem c7_upstream_end_first_wit :
    ∃ tl,
      (handle_conversation_end envW1 sessW).effects =
        Effect.pushFrame Frame.EndFrame FrameDirection.UPSTREAM ::
        Effect.logInfo "Conversation Ended" ::
        Effect.printText (renderTranscript (sessW.derefLog.drop 1)) ::
        Effect.extractCall
          (extractionInstruction ++ "\n"
            ++ renderTranscript (sessW.derefLog.drop 1)) :: tl ∧
      ∀ u b, Effect.registryPost u b ∈ (handle_conversation_end envW1 sessW).effects →
        Effect.registryPost u b ∈ tl :=
  c7_upstream_end_first envW1 sessW rfl

/-- Claim C8 counterexample: a dialogue-content frame with an empty message
list is not forwarded — `frame.messages[-1]` raises `IndexError` before the
final `push_frame`, leaving an empty trace — so the claim that every frame
is passed through unchanged is false of the code. -/
theorem c8_counterexample :
    (process_frame envW1 sessW (.LLMMessagesFrame []) .DOWNSTREAM).effects = [] ∧
    (process_frame envW1 sessW (.LLMMessagesFrame []) .DOWNSTREAM).error
      = some PyError.indexError ∧
    Effect.pushFrame (Frame.LLMMessagesFrame []) FrameDirection.DOWNSTREAM ∉
      (process_frame envW1 sessW (.LLMMessagesFrame []) .DOWNSTREAM).effects := by
  refine ⟨rfl, rfl, ?_⟩
  intro hmem
  simp [process_frame] at hmem

/-- Claim C8 as amended: whenever handling a frame completes without an
exception, the received frame is forwarded unchanged in the received
direction as the final action; and every frame kind the stage does not
recognize (neither dialogue-content nor `End`) always passes through with
no change to controller state or shared transcript, the forward push being
its only effect. -/
theorem c8_pass_through_amended (env : Env) (s : Session Loc) (f : Frame)
    (d : FrameDirection) :
    ((process_frame env s f d).error = none →
      (process_frame env s f d).effects.getLast? = some (.pushFrame f d)) ∧
    ((∀ msgs, f ≠ .LLMMessagesFrame msgs) → f ≠ .EndFrame →
      process_frame env s f d = ⟨s, [.pushFrame f d], none⟩) := by
  constructor
  · intro he
    cases f with
    | LLMMessagesFrame messages =>
      cases hl : messages.getLast? with
      | none =>
        have : (process_frame env s (.LLMMessagesFrame messages) d).error
            = some .indexError := by simp [process_frame, hl]
        rw [this] at he
        cases he
      | some last =>
        by_cases hc : (last.role == "assistant" && strContains last.content "<END>") = true
        · cases her : (handle_conversation_end env s).error with
          | none =>
            have heq : process_frame env s (.LLMMessagesFrame messages) d =
                ⟨(handle_conversation_end env s).state,
                 (handle_conversation_end env s).effects
                   ++ [.printMessage last,
                       .pushFrame (.LLMMessagesFrame messages) d],
                 none⟩ := by
              simp [process_frame, hl, hc, her]
            rw [heq]
            simp
          | some e =>
            have : (process_frame env s (.LLMMessagesFrame messages) d).error
                = some e := by simp [process_frame, hl, hc, her]
            rw [this] at he
            cases he
        · have heq : process_frame env s (.LLMMessagesFrame messages) d =
              ⟨s, [.printMessage last,
                   .pushFrame (.LLMMessagesFrame messages) d], none⟩ := by
            simp [process_frame, hl, hc]
          rw [heq]
          simp
    | EndFrame =>
      cases her : (handle_conversation_end env s).error with
      | none =>
        have heq : process_frame env s .EndFrame d =
            ⟨(handle_conversation_end env s).state,
             (handle_conversation_end env s).effects ++ [.pushFrame .EndFrame d],
             none⟩ := by
          simp [process_frame, her]
        rw [heq]
        simp
      | some e =>
        have : (process_frame env s .EndFrame d).error = some e := by
          simp [process_frame, her]
        rw [this] at he
        cases he
    | StartFrame => simp [process_frame]
    | CancelFrame => simp [process_frame]
    | OtherFrame k => simp [process_frame]
  · intro hnm hne
    cases f with
    | LLMMessagesFrame messages => exact absurd rfl (hnm messages)
    | EndFrame => exact absurd rfl hne
    | StartFrame => rfl
    | CancelFrame => rfl
    | OtherFrame k => rfl

/-- Witness for C8's amended statement: an unrecognized frame kind passes
through a fresh session unchanged, the push being both present and last. -/
theorem c8_pass_through_amended_wit :
    (process_frame envW1 sessW (.OtherFrame "AudioRawFrame") .DOWNSTREAM).effects.getLast?
      = some (.pushFrame (.OtherFrame "AudioRawFrame") .DOWNSTREAM) ∧
    process_frame envW1 sessW (.OtherFrame "AudioRawFrame") .DOWNSTREAM =
      ⟨sessW, [.pushFrame (.OtherFrame "AudioRawFrame") .DOWNSTREAM], none⟩ :=
  ⟨(c8_pass_through_amended envW1 sessW (.OtherFrame "AudioRawFrame") .DOWNSTREAM).1 rfl,
   (c8_pass_through_amended envW1 sessW (.OtherFrame "AudioRawFrame") .DOWNSTREAM).2
     (fun _ hcontra => Frame.noConfusion hcontra) (fun hcontra => Frame.noConfusion hcontra)⟩

/-- Claim C9: the termination sequence is read-only on the shared per-session
turn list — the Python slice `self.conversation_log[1:]` rebinds the
attribute to a fresh list, so neither `handle_conversation_end` nor any
`process_frame` call writes the shared transcript cell the aggregators
append to. -/
theorem c9_shared_transcript_read_only (env : Env) (s : Session Loc) :
    (handle_conversation_end env s).state.shared = s.shared ∧
    ∀ f d, (process_frame env s f d).state.shared = s.shared :=
  ⟨handle_end_shared env s, fun f d => process_frame_shared env s f d⟩

/-- Claim C10: sentinel detection inspects only the final turn of a
dialogue-content frame — whenever the last message is not an assistant turn
containing the sentinel, the frame is printed and forwarded with no state
change and no termination effects, even if an earlier message in the frame
is an assistant turn containing the sentinel. -/
theorem c10_sentinel_inspects_last_turn_only (env : Env) (s : Session Loc)
    (msgs : List Turn) (d : FrameDirection) (last : Turn)
    (hl : msgs.getLast? = some last)
    (hno : last.role ≠ "assistant" ∨ strContains last.content "<END>" = false) :
    process_frame env s (.LLMMessagesFrame msgs) d =
      ⟨s, [.printMessage last, .pushFrame (.LLMMessagesFrame msgs) d], none⟩ := by
  have hc : (last.role == "assistant" && strContains last.content "<END>") = false := by
    rcases hno with hr | hcn
    · simp [hr]
    · simp [hcn]
  simp [process_frame, hl, hc]

/-- Witness for C10: a frame whose second message is an assistant turn
containing the sentinel but whose final message is a user turn does not
terminate the session. -/
theorem c10_sentinel_inspects_last_turn_only_wit :
    process_frame envW1 sessW10 (.LLMMessagesFrame msgsW10) .DOWNSTREAM =
      ⟨sessW10,
       [.printMessage ⟨"user", "wait, one more thing"⟩,
        .pushFrame (.LLMMessagesFrame msgsW10) .DOWNSTREAM], none⟩ :=
  c10_sentinel_inspects_last_turn_only envW1 sessW10
    msgsW10 .DOWNSTREAM ⟨"user", "wait, one more thing"⟩ (by decide)
    (Or.inl (by decide))

end VoiceAgent
